import Mathlib

/-!
Shallow embedding of the frontend decision-display layer of the
AI-healthcare screening UI (`src/frontend/src/types/index.ts`,
`src/frontend/src/utils/helpers.ts`, and the Policies / What-If /
Fairness / Patient-Detail pages).

Numbers that the TypeScript source stores as JS `number` are modelled as
exact rationals (`ℚ`); every constant appearing in the source is an exact
decimal, so the embedding is faithful for all comparisons performed by
the code.  Nullable numbers (`number | null | undefined`) are modelled as
`Option ℚ`.
-/

/-- `ActionType` from `src/frontend/src/types/index.ts`: the four action
enum values. -/
inductive ActionType where
  | NO_ACTION
  | RECOMMEND_NEURO_REVIEW
  | DRAFT_MRI_ORDER
  | AUTO_ORDER_MRI_AND_NOTIFY_NEURO
deriving DecidableEq

/-- `AutonomyLevel` from `src/frontend/src/types/index.ts`: the autonomy
enum values as declared in the source (three of them). -/
inductive AutonomyLevel where
  | RECOMMEND_ONLY
  | DRAFT_ORDER
  | AUTO_ORDER_WITH_GUARDRAILS
deriving DecidableEq

/-- The four action enum values, in declaration order. -/
def ActionType.all : List ActionType :=
  [ActionType.NO_ACTION, ActionType.RECOMMEND_NEURO_REVIEW,
   ActionType.DRAFT_MRI_ORDER, ActionType.AUTO_ORDER_MRI_AND_NOTIFY_NEURO]

/-- The autonomy enum values, in declaration order. -/
def AutonomyLevel.all : List AutonomyLevel :=
  [AutonomyLevel.RECOMMEND_ONLY, AutonomyLevel.DRAFT_ORDER,
   AutonomyLevel.AUTO_ORDER_WITH_GUARDRAILS]

instance : Fintype ActionType where
  elems := ⟨↑ActionType.all, by decide⟩
  complete := by intro x; cases x <;> decide

instance : Fintype AutonomyLevel where
  elems := ⟨↑AutonomyLevel.all, by decide⟩
  complete := by intro x; cases x <;> decide

/-- `RiskAssessment` from `src/frontend/src/types/index.ts` (the fields
relevant to the decision display; metadata strings omitted). -/
structure RiskAssessment where
  risk_score : ℚ
  action : ActionType
  autonomy_level : AutonomyLevel
  feature_contributions : List (String × ℚ)
  flags : List String
  flag_count : ℕ
  rationale : List String

/-- `getActionColor` from `src/frontend/src/utils/helpers.ts`. -/
def getActionColor (action : String) : String :=
  if action = "AUTO_ORDER_MRI_AND_NOTIFY_NEURO" then "#d32f2f"
  else if action = "DRAFT_MRI_ORDER" then "#f57c00"
  else if action = "RECOMMEND_NEURO_REVIEW" then "#1976d2"
  else if action = "NO_ACTION" then "#4caf50"
  else "#757575"

/-- `getActionLabel` from `src/frontend/src/utils/helpers.ts`. -/
def getActionLabel (action : String) : String :=
  if action = "AUTO_ORDER_MRI_AND_NOTIFY_NEURO" then "Auto Order MRI"
  else if action = "DRAFT_MRI_ORDER" then "Draft MRI Order"
  else if action = "RECOMMEND_NEURO_REVIEW" then "Recommend Review"
  else if action = "NO_ACTION" then "No Action"
  else action

/-- `getAutonomyColor` from `src/frontend/src/utils/helpers.ts`. -/
def getAutonomyColor (level : String) : String :=
  if level = "AUTO_ORDER_WITH_GUARDRAILS" then "#d32f2f"
  else if level = "DRAFT_ORDER" then "#f57c00"
  else if level = "RECOMMEND_ONLY" then "#1976d2"
  else "#757575"

/-- `getAutonomyLabel` from `src/frontend/src/utils/helpers.ts`. -/
def getAutonomyLabel (level : String) : String :=
  if level = "AUTO_ORDER_WITH_GUARDRAILS" then "Auto with Guardrails"
  else if level = "DRAFT_ORDER" then "Draft Order"
  else if level = "RECOMMEND_ONLY" then "Recommend Only"
  else level

/-- `getSeverityColor` from `src/frontend/src/utils/helpers.ts` (returns
one of the four MUI severity strings). -/
def getSeverityColor (severity : String) : String :=
  if severity = "critical" then "error"
  else if severity = "warning" then "warning"
  else if severity = "success" then "success"
  else "info"

/-- `getRiskColor` from `src/frontend/src/utils/helpers.ts`. -/
def getRiskColor (score : ℚ) : String :=
  if score ≥ 0.9 then "#d32f2f"
  else if score ≥ 0.8 then "#f57c00"
  else if score ≥ 0.65 then "#ffa726"
  else if score ≥ 0.4 then "#ffee58"
  else "#4caf50"

/-- The risk band (0 = lowest, 4 = highest) that `getRiskColor` assigns a
score to; the bands follow the same cutoffs and the same `≥` comparisons
as the source. -/
def riskBand (score : ℚ) : ℕ :=
  if score ≥ 0.9 then 4
  else if score ≥ 0.8 then 3
  else if score ≥ 0.65 then 2
  else if score ≥ 0.4 then 1
  else 0

/-- The color of each risk band, in increasing order of risk. -/
def bandColor : ℕ → String
  | 0 => "#4caf50"
  | 1 => "#ffee58"
  | 2 => "#ffa726"
  | 3 => "#f57c00"
  | _ => "#d32f2f"

theorem getRiskColor_eq_bandColor (s : ℚ) : getRiskColor s = bandColor (riskBand s) := by
  unfold getRiskColor riskBand
  split_ifs <;> rfl

/-- Decimal digits of a natural number, most significant first (always at
least one digit, as in JS number-to-string conversion). -/
def natDigits (n : ℕ) : List Char :=
  if n < 10 then [Nat.digitChar n]
  else natDigits (n / 10) ++ [Nat.digitChar (n % 10)]
termination_by n
decreasing_by
  simp_wf
  exact Nat.div_lt_self (by omega) (by omega)

/-- The `d` decimal digits of `m` (which is `< 10 ^ d`), most significant
first, zero-padded to exactly `d` digits. -/
def fracDigits (m d : ℕ) : List Char :=
  (List.range d).map (fun i => Nat.digitChar (m / 10 ^ (d - 1 - i) % 10))

/-- Model of JS `Number.prototype.toFixed` on exact rational inputs: the
ES specification splits off the sign, then picks the integer `n` closest
to `|x| * 10 ^ d`, ties toward the larger `n` (i.e. `⌊|x| * 10 ^ d + 1/2⌋`),
and prints `n` with a decimal point before the last `d` digits. -/
def jsToFixed (x : ℚ) (d : ℕ) : String :=
  let m : ℕ := (Int.floor (|x| * 10 ^ d + 1 / 2)).toNat
  let sign : String := if x < 0 then "-" else ""
  let ip : String := String.mk (natDigits (m / 10 ^ d))
  if d = 0 then sign ++ ip
  else sign ++ ip ++ "." ++ String.mk (fracDigits (m % 10 ^ d) d)

/-- `formatPercent` from `src/frontend/src/utils/helpers.ts`:
`value == null` is 'N/A', otherwise `(value * 100).toFixed(1)` + '%'. -/
def formatPercent (value : Option ℚ) : String :=
  match value with
  | none => "N/A"
  | some x => jsToFixed (x * 100) 1 ++ "%"

/-- `formatScore` from `src/frontend/src/utils/helpers.ts`:
`value == null` is 'N/A', otherwise `value.toFixed(4)`. -/
def formatScore (value : Option ℚ) : String :=
  match value with
  | none => "N/A"
  | some x => jsToFixed x 4

/-- The four numeric parameters shared by `PolicyConfiguration`
(`src/frontend/src/types/index.ts`), the What-If threshold state and the
policy-creation form. -/
structure PolicyParams where
  risk_review_threshold : ℚ
  draft_order_threshold : ℚ
  auto_order_threshold : ℚ
  max_auto_actions_per_day : ℤ
deriving DecidableEq

/-- The four What-If presets (`WhatIfPage`, `presets`). -/
def presets : List (String × PolicyParams) :=
  [("Conservative", ⟨0.75, 0.88, 0.95, 10⟩),
   ("Balanced (Default)", ⟨0.65, 0.80, 0.90, 20⟩),
   ("Aggressive", ⟨0.50, 0.70, 0.85, 40⟩),
   ("No Auto", ⟨0.65, 0.80, 1.01, 0⟩)]

/-- The initial What-If threshold state (`WhatIfPage`, `useState`). -/
def whatIfInitialThresholds : PolicyParams := ⟨0.65, 0.80, 0.90, 20⟩

/-- The numeric part of the policy-creation form's initial state
(`PoliciesPage`, `useState`; the form also carries `name` and
`created_by` strings). -/
def policiesFormDefault : PolicyParams := ⟨0.65, 0.80, 0.90, 20⟩

/-- A MUI slider configuration: `min`, `max`, `step`. -/
structure SliderCfg where
  lo : ℚ
  hi : ℚ
  step : ℚ

/-- The review-threshold slider of `WhatIfPage` (min 0.3, max 1, step 0.01). -/
def reviewSlider : SliderCfg := ⟨0.3, 1, 0.01⟩

/-- The draft-order-threshold slider of `WhatIfPage` (min 0.3, max 1, step 0.01). -/
def draftSlider : SliderCfg := ⟨0.3, 1, 0.01⟩

/-- The auto-order-threshold slider of `WhatIfPage` (min 0.3, max 1.01, step 0.01). -/
def autoSlider : SliderCfg := ⟨0.3, 1.01, 0.01⟩

/-- A value is reachable on a slider when it is `min + k * step` for some
number of steps `k` and does not exceed `max`. -/
def sliderReachable (c : SliderCfg) (v : ℚ) : Prop :=
  ∃ k : ℕ, v = c.lo + k * c.step ∧ v ≤ c.hi

/-- The Policy ordering invariant stated by the spec: ascending
thresholds and a non-negative daily auto-action quota. -/
def policyOrdered (p : PolicyParams) : Prop :=
  p.risk_review_threshold ≤ p.draft_order_threshold ∧
  p.draft_order_threshold ≤ p.auto_order_threshold ∧
  0 ≤ p.max_auto_actions_per_day

/-- `Patient` from `src/frontend/src/types/index.ts` (demographics and
the eight boolean symptom flags; string metadata and optional lab fields
kept where a claim mentions them). -/
structure Patient where
  patient_id : String
  age : ℤ
  sex : String
  visits_last_year : ℤ
  lookalike_dx : String
  note : String
  has_mri : Bool
  mri_lesions : Bool
  note_has_ms_terms : Bool
  true_at_risk : Bool
  symptom_count : ℕ
  optic_neuritis : Bool
  paresthesia : Bool
  weakness : Bool
  gait_instability : Bool
  vertigo : Bool
  fatigue : Bool
  bladder_issues : Bool
  cognitive_fog : Bool
  vitamin_d_ngml : Option ℚ
  vitamin_d_deficient : Option Bool
  infectious_mono_history : Option Bool
  smartform_neuro_symptom_score : Option ℚ
  paths_like_function_score : Option ℚ

/-- The eight boolean symptom-flag fields of `Patient`, as (name, value)
pairs in the declaration order of `src/frontend/src/types/index.ts`. -/
def patientSymptomFlags (p : Patient) : List (String × Bool) :=
  [("optic_neuritis", p.optic_neuritis),
   ("paresthesia", p.paresthesia),
   ("weakness", p.weakness),
   ("gait_instability", p.gait_instability),
   ("vertigo", p.vertigo),
   ("fatigue", p.fatigue),
   ("bladder_issues", p.bladder_issues),
   ("cognitive_fog", p.cognitive_fog)]

/-- `symptomLabels` from `src/frontend/src/utils/helpers.ts`, as
(key, label) pairs in source order. -/
def symptomLabels : List (String × String) :=
  [("optic_neuritis", "Optic Neuritis"),
   ("paresthesia", "Paresthesia"),
   ("weakness", "Weakness"),
   ("gait_instability", "Gait Instability"),
   ("vertigo", "Vertigo"),
   ("fatigue", "Fatigue"),
   ("bladder_issues", "Bladder Issues"),
   ("cognitive_fog", "Cognitive Fog")]

/-- The `symptoms` display list of `PatientDetailPage`. -/
def symptoms : List String :=
  ["optic_neuritis", "paresthesia", "weakness", "gait_instability",
   "vertigo", "fatigue", "bladder_issues", "cognitive_fog"]

/-- `SubgroupData` from `src/frontend/src/types/index.ts`. -/
structure SubgroupData where
  group : String
  n : ℕ
  flagged_rate : ℚ
  avg_risk : ℚ
  auto_or_draft_rate : ℚ
  auto_rate : ℚ
  safety_flag_rate : ℚ
  true_at_risk_rate : ℚ
  mri_rate : ℚ

/-- One rendered row of the `FairnessPage` subgroup-metrics table: the
nine cell strings, in column order. -/
structure FairnessRow where
  groupCell : String
  nCell : String
  flagRateCell : String
  avgRiskCell : String
  autoDraftCell : String
  autoCell : String
  safetyCell : String
  trueAtRiskCell : String
  mriCell : String
deriving DecidableEq

/-- The cells `FairnessPage` renders for one subgroup entry (`data.map`
body): group name, `n`, and each rate field formatted exactly as in the
JSX (`formatPercent` for rates, `toFixed(4)` for average risk). -/
def subgroupRow (row : SubgroupData) : FairnessRow :=
  ⟨row.group, toString row.n,
   formatPercent (some row.flagged_rate),
   jsToFixed row.avg_risk 4,
   formatPercent (some row.auto_or_draft_rate),
   formatPercent (some row.auto_rate),
   formatPercent (some row.safety_flag_rate),
   formatPercent (some row.true_at_risk_rate),
   formatPercent (some row.mri_rate)⟩

/-- The full table body of `FairnessPage`: a plain `map` over the
subgroup data, with no filtering. -/
def fairnessRows (data : List SubgroupData) : List FairnessRow :=
  data.map subgroupRow

/-- `k.replace(/_/g, ' ')` from the `contribData` mapping of
`PatientDetailPage`. -/
def replaceUnderscores (s : String) : String :=
  s.map (fun c => if c = '_' then ' ' else c)

/-- Rounding performed by `Number(v.toFixed(d))`: sign split off, then
round half toward larger magnitude, back at scale `10 ^ d`. -/
def jsRound (x : ℚ) (d : ℕ) : ℚ :=
  if x < 0 then -((Int.floor (-x * 10 ^ d + 1 / 2) : ℚ) / 10 ^ d)
  else (Int.floor (x * 10 ^ d + 1 / 2) : ℚ) / 10 ^ d

/-- The comparator `(a, b) => Math.abs(b[1]) - Math.abs(a[1])` of the
`contribData` sort, as the Boolean order it induces: `a` precedes `b`
when `|b| ≤ |a|` (descending absolute contribution). -/
def absDesc (a b : String × ℚ) : Bool :=
  decide (|b.2| ≤ |a.2|)

/-- `Object.entries(...).filter(([_, v]) => v !== 0).sort(...)` from
`PatientDetailPage`: nonzero contributions in descending absolute value
(JS `Array.prototype.sort` is stable, matching `mergeSort`). -/
def contribSorted (m : List (String × ℚ)) : List (String × ℚ) :=
  (m.filter (fun p => decide (p.2 ≠ 0))).mergeSort absDesc

/-- `.slice(0, 10)` applied to the sorted nonzero contributions. -/
def contribTop (m : List (String × ℚ)) : List (String × ℚ) :=
  (contribSorted m).take 10

/-- `contribData` from `PatientDetailPage`: top-ten nonzero
contributions, renamed (`_` → space) and rounded to 4 decimal places. -/
def contribData (m : List (String × ℚ)) : List (String × ℚ) :=
  (contribTop m).map (fun p => (replaceUnderscores p.1, jsRound p.2 4))

/-- C1 counterexample: the claim asserts the autonomy-level type has a
distinct value for each of the four actions (including `NO_ACTION`), but
`AutonomyLevel` has only three values, so no injective assignment of an
autonomy value to each action exists. -/
theorem C1_counterexample :
    ¬ ∃ f : ActionType → AutonomyLevel, Function.Injective f := by
  decide

/-- C1 (amended): there are four actions but only three autonomy values
(`RECOMMEND_ONLY`, `DRAFT_ORDER`, `AUTO_ORDER_WITH_GUARDRAILS`); every
`RiskAssessment`'s autonomy level is one of these three, `getAutonomyLabel`
gives the three values three distinct labels, and the string `NO_ACTION`
is not a recognized autonomy level (it falls through unchanged). -/
theorem C1_amended_autonomy_three_values :
    Fintype.card ActionType = 4 ∧
    Fintype.card AutonomyLevel = 3 ∧
    (∀ a : RiskAssessment,
      a.autonomy_level = AutonomyLevel.RECOMMEND_ONLY ∨
      a.autonomy_level = AutonomyLevel.DRAFT_ORDER ∨
      a.autonomy_level = AutonomyLevel.AUTO_ORDER_WITH_GUARDRAILS) ∧
    getAutonomyLabel "RECOMMEND_ONLY" = "Recommend Only" ∧
    getAutonomyLabel "DRAFT_ORDER" = "Draft Order" ∧
    getAutonomyLabel "AUTO_ORDER_WITH_GUARDRAILS" = "Auto with Guardrails" ∧
    getAutonomyLabel "NO_ACTION" = "NO_ACTION" := by
  refine ⟨by decide, by decide, ?_, by decide, by decide, by decide, by decide⟩
  intro a
  cases a.autonomy_level <;> simp

/-- C4: `getRiskColor`'s score-to-bucket mapping is a non-decreasing step
function of the score; a score exactly equal to a cutoff (0.4, 0.65, 0.8,
0.9) falls into the higher-risk band, and score 1.0 falls into the
topmost band. -/
theorem C4_riskBand_monotone_boundaries :
    (∀ s t : ℚ, s ≤ t → riskBand s ≤ riskBand t) ∧
    (∀ s : ℚ, getRiskColor s = bandColor (riskBand s)) ∧
    riskBand 0.4 = 1 ∧ riskBand 0.65 = 2 ∧ riskBand 0.8 = 3 ∧
    riskBand 0.9 = 4 ∧ riskBand 1 = 4 := by
  refine ⟨?_, getRiskColor_eq_bandColor, ?_, ?_, ?_, ?_, ?_⟩
  · intro s t hst
    unfold riskBand
    split_ifs <;> first | omega | linarith
  all_goals (unfold riskBand; norm_num)

/-- C4 witness: the monotonicity part applied at scores 0.3 ≤ 0.7. -/
theorem C4_riskBand_monotone_boundaries_witness :
    (0.3 : ℚ) ≤ 0.7 ∧ riskBand 0.3 ≤ riskBand 0.7 :=
  ⟨by norm_num, C4_riskBand_monotone_boundaries.1 0.3 0.7 (by norm_num)⟩

/-- C2 counterexample: the 'No Auto' preset carries
`auto_order_threshold = 1.01 > 1`, and 1.01 is also reachable on the
auto-order slider (71 steps of 0.01 from 0.3), so not every
offered/constructible threshold lies in [0, 1]. -/
theorem C2_counterexample :
    ∃ p ∈ presets, 1 < p.2.auto_order_threshold ∧
      sliderReachable autoSlider p.2.auto_order_threshold := by
  refine ⟨("No Auto", ⟨0.65, 0.80, 1.01, 0⟩), by simp [presets], by norm_num, 71, ?_⟩
  constructor <;> norm_num [autoSlider]

/-- C2 (amended): for every preset, the review and draft thresholds lie
in [0, 1] and the auto threshold lies in [0, 1.01] (only the 'No Auto'
preset uses 1.01, placing auto-ordering out of reach of any score); every
review- or draft-slider-reachable value lies in [0, 1] and every
auto-slider-reachable value lies in [0, 1.01]. -/
theorem C2_amended_threshold_ranges :
    (∀ p ∈ presets,
      0 ≤ p.2.risk_review_threshold ∧ p.2.risk_review_threshold ≤ 1 ∧
      0 ≤ p.2.draft_order_threshold ∧ p.2.draft_order_threshold ≤ 1 ∧
      0 ≤ p.2.auto_order_threshold ∧ p.2.auto_order_threshold ≤ 1.01) ∧
    (∀ v : ℚ, sliderReachable reviewSlider v → 0 ≤ v ∧ v ≤ 1) ∧
    (∀ v : ℚ, sliderReachable draftSlider v → 0 ≤ v ∧ v ≤ 1) ∧
    (∀ v : ℚ, sliderReachable autoSlider v → 0 ≤ v ∧ v ≤ 1.01) := by
  refine ⟨?_, ?_, ?_, ?_⟩
  · intro p hp
    fin_cases hp <;> norm_num
  all_goals
    rintro v ⟨k, rfl, hle⟩
    refine ⟨?_, ?_⟩
    · have hk : (0 : ℚ) ≤ k := Nat.cast_nonneg k
      norm_num [reviewSlider, draftSlider, autoSlider]
      nlinarith
    · simpa [reviewSlider, draftSlider, autoSlider] using hle

/-- C2 witness: the amended theorem applied to the 'Conservative' preset
and to the review-slider value 0.65 = 0.3 + 35 × 0.01. -/
theorem C2_amended_threshold_ranges_witness :
    (("Conservative", (⟨0.75, 0.88, 0.95, 10⟩ : PolicyParams)) ∈ presets ∧
      (0 : ℚ) ≤ 0.75 ∧ (0.75 : ℚ) ≤ 1 ∧ (0 : ℚ) ≤ 0.88 ∧ (0.88 : ℚ) ≤ 1 ∧
      (0 : ℚ) ≤ 0.95 ∧ (0.95 : ℚ) ≤ 1.01) ∧
    (sliderReachable reviewSlider 0.65 ∧ (0 : ℚ) ≤ 0.65 ∧ (0.65 : ℚ) ≤ 1) := by
  have hmem : ("Conservative", (⟨0.75, 0.88, 0.95, 10⟩ : PolicyParams)) ∈ presets := by
    simp [presets]
  have hreach : sliderReachable reviewSlider 0.65 := by
    exact ⟨35, by norm_num [reviewSlider], by norm_num [reviewSlider]⟩
  exact ⟨⟨hmem, C2_amended_threshold_ranges.1 _ hmem⟩,
         ⟨hreach, C2_amended_threshold_ranges.2.1 0.65 hreach⟩⟩

/-- C5: the policy-creation form's initial numeric values, the What-If
page's initial threshold state, and the 'Balanced (Default)' preset all
carry exactly (review 0.65, draft 0.80, auto 0.90, quota 20). -/
theorem C5_default_policy_identical :
    policiesFormDefault = ⟨0.65, 0.80, 0.90, 20⟩ ∧
    whatIfInitialThresholds = policiesFormDefault ∧
    ("Balanced (Default)", policiesFormDefault) ∈ presets := by
  refine ⟨rfl, rfl, ?_⟩
  simp [presets, policiesFormDefault]

/-- C6: every What-If preset and the policy-creation default satisfy
`review ≤ draft ≤ auto` with a non-negative daily auto-action quota. -/
theorem C6_presets_ordered :
    (∀ p ∈ presets, policyOrdered p.2) ∧ policyOrdered policiesFormDefault := by
  constructor
  · intro p hp
    fin_cases hp <;> exact ⟨by norm_num, by norm_num, by norm_num⟩
  · exact ⟨by norm_num [policiesFormDefault], by norm_num [policiesFormDefault],
           by norm_num [policiesFormDefault]⟩

/-- C6 witness: the ordering invariant instantiated at the
'Conservative' preset. -/
theorem C6_presets_ordered_witness :
    policyOrdered ⟨0.75, 0.88, 0.95, 10⟩ :=
  C6_presets_ordered.1 ("Conservative", ⟨0.75, 0.88, 0.95, 10⟩) (by simp [presets])

/-- C7: the patient model's symptom-flag fields, the keys of the UI's
`symptomLabels` map, and `PatientDetailPage`'s `symptoms` display list
all enumerate the same fixed set of 8 symptom names, with no duplicates. -/
theorem C7_eight_symptoms :
    (∀ p : Patient, (patientSymptomFlags p).map Prod.fst = symptoms) ∧
    symptomLabels.map Prod.fst = symptoms ∧
    symptoms.length = 8 ∧ symptoms.Nodup := by
  exact ⟨fun p => rfl, by decide, by decide, by decide⟩

/-- C8: `FairnessPage` renders exactly one subgroup-table row per
subgroup entry — the row list is an unfiltered `map`, so its length
always equals the data's length, entry `i` renders entry `i`'s data, and
each row shows the group name, its `n`, and each formatted rate field. -/
theorem C8_fairness_no_group_dropped :
    (∀ data : List SubgroupData, (fairnessRows data).length = data.length) ∧
    (∀ (data : List SubgroupData) (i : ℕ),
      (fairnessRows data)[i]? = (data[i]?).map subgroupRow) ∧
    (∀ d : SubgroupData,
      (subgroupRow d).groupCell = d.group ∧
      (subgroupRow d).nCell = toString d.n ∧
      (subgroupRow d).flagRateCell = formatPercent (some d.flagged_rate) ∧
      (subgroupRow d).avgRiskCell = jsToFixed d.avg_risk 4 ∧
      (subgroupRow d).autoDraftCell = formatPercent (some d.auto_or_draft_rate) ∧
      (subgroupRow d).autoCell = formatPercent (some d.auto_rate) ∧
      (subgroupRow d).safetyCell = formatPercent (some d.safety_flag_rate) ∧
      (subgroupRow d).trueAtRiskCell = formatPercent (some d.true_at_risk_rate) ∧
      (subgroupRow d).mriCell = formatPercent (some d.mri_rate)) := by
  refine ⟨fun data => ?_, fun data i => ?_, fun d => ?_⟩
  · simp [fairnessRows]
  · simp [fairnessRows, List.getElem?_map]
  · exact ⟨rfl, rfl, rfl, rfl, rfl, rfl, rfl, rfl, rfl⟩

/-- The action enum strings recognized by `getActionColor` /
`getActionLabel`, in the order of their `switch` cases. -/
def knownActions : List String :=
  ["AUTO_ORDER_MRI_AND_NOTIFY_NEURO", "DRAFT_MRI_ORDER",
   "RECOMMEND_NEURO_REVIEW", "NO_ACTION"]

/-- The autonomy enum strings recognized by `getAutonomyColor` /
`getAutonomyLabel`, in the order of their `switch` cases. -/
def knownAutonomyLevels : List String :=
  ["AUTO_ORDER_WITH_GUARDRAILS", "DRAFT_ORDER", "RECOMMEND_ONLY"]

/-- C9: the display helpers are total on strings: each color helper
always returns one of its fixed colors, with fallback '#757575' outside
the known enum strings; the label helpers are the identity on unknown
strings; `getSeverityColor` maps 'critical' to 'error', 'warning' and
'success' to themselves, and everything else to 'info'. -/
theorem C9_display_helpers_total :
    (∀ s : String,
      getActionColor s ∈ ["#d32f2f", "#f57c00", "#1976d2", "#4caf50", "#757575"]) ∧
    (∀ s : String, s ∉ knownActions →
      getActionColor s = "#757575" ∧ getActionLabel s = s) ∧
    (∀ s : String, getAutonomyColor s ∈ ["#d32f2f", "#f57c00", "#1976d2", "#757575"]) ∧
    (∀ s : String, s ∉ knownAutonomyLevels →
      getAutonomyColor s = "#757575" ∧ getAutonomyLabel s = s) ∧
    getSeverityColor "critical" = "error" ∧
    getSeverityColor "warning" = "warning" ∧
    getSeverityColor "success" = "success" ∧
    (∀ s : String, s ∉ ["critical", "warning", "success"] →
      getSeverityColor s = "info") := by
  refine ⟨?_, ?_, ?_, ?_, by decide, by decide, by decide, ?_⟩
  · intro s; unfold getActionColor; split_ifs <;> simp
  · intro s hs
    simp only [knownActions, List.mem_cons, List.not_mem_nil, or_false] at hs
    push_neg at hs
    obtain ⟨h1, h2, h3, h4⟩ := hs
    unfold getActionColor getActionLabel
    rw [if_neg h1, if_neg h2, if_neg h3, if_neg h4,
        if_neg h1, if_neg h2, if_neg h3, if_neg h4]
    exact ⟨rfl, rfl⟩
  · intro s; unfold getAutonomyColor; split_ifs <;> simp
  · intro s hs
    simp only [knownAutonomyLevels, List.mem_cons, List.not_mem_nil, or_false] at hs
    push_neg at hs
    obtain ⟨h1, h2, h3⟩ := hs
    unfold getAutonomyColor getAutonomyLabel
    rw [if_neg h1, if_neg h2, if_neg h3, if_neg h1, if_neg h2, if_neg h3]
    exact ⟨rfl, rfl⟩
  · intro s hs
    simp only [List.mem_cons, List.not_mem_nil, or_false] at hs
    push_neg at hs
    obtain ⟨h1, h2, h3⟩ := hs
    unfold getSeverityColor
    rw [if_neg h1, if_neg h2, if_neg h3]

/-- C9 witness: the fallback branches instantiated at the unknown string
'UNKNOWN'. -/
theorem C9_display_helpers_total_witness :
    ("UNKNOWN" ∉ knownActions ∧
      getActionColor "UNKNOWN" = "#757575" ∧ getActionLabel "UNKNOWN" = "UNKNOWN") ∧
    ("UNKNOWN" ∉ knownAutonomyLevels ∧
      getAutonomyColor "UNKNOWN" = "#757575" ∧ getAutonomyLabel "UNKNOWN" = "UNKNOWN") ∧
    ("UNKNOWN" ∉ (["critical", "warning", "success"] : List String) ∧
      getSeverityColor "UNKNOWN" = "info") := by
  have ha : "UNKNOWN" ∉ knownActions := by decide
  have hb : "UNKNOWN" ∉ knownAutonomyLevels := by decide
  have hc : "UNKNOWN" ∉ (["critical", "warning", "success"] : List String) := by decide
  exact ⟨⟨ha, C9_display_helpers_total.2.1 "UNKNOWN" ha⟩,
         ⟨hb, C9_display_helpers_total.2.2.2.1 "UNKNOWN" hb⟩,
         ⟨hc, C9_display_helpers_total.2.2.2.2.2.2.2 "UNKNOWN" hc⟩⟩

theorem natDigits_length_pos (n : ℕ) : 0 < (natDigits n).length := by
  unfold natDigits
  split
  · simp
  · simp

theorem fracDigits_length (m d : ℕ) : (fracDigits m d).length = d := by
  simp [fracDigits]

theorem jsToFixed_length (x : ℚ) (d : ℕ) (hd : d ≠ 0) :
    2 + d ≤ (jsToFixed x d).length := by
  unfold jsToFixed
  simp only
  rw [if_neg hd]
  have hip : 0 < (natDigits ((Int.floor (|x| * 10 ^ d + 1 / 2)).toNat / 10 ^ d)).length :=
    natDigits_length_pos _
  simp only [String.length_append]
  have hfrac : (String.mk (fracDigits ((Int.floor (|x| * 10 ^ d + 1 / 2)).toNat % 10 ^ d) d)).length = d := by
    show (fracDigits _ d).length = d
    exact fracDigits_length _ d
  have hmk : (String.mk (natDigits ((Int.floor (|x| * 10 ^ d + 1 / 2)).toNat / 10 ^ d))).length
      = (natDigits ((Int.floor (|x| * 10 ^ d + 1 / 2)).toNat / 10 ^ d)).length := rfl
  rw [hfrac, hmk]
  have hdot : ("." : String).length = 1 := rfl
  rw [hdot]
  omega

/-- C3: indeterminate precision/recall/F1 values render as the explicit
string 'N/A': a null input yields 'N/A' from both `formatPercent` and
`formatScore`; a present number `x` yields `(x*100).toFixed(1) + '%'`
resp. `x.toFixed(4)`, and those outputs are never the string 'N/A'. -/
theorem C3_indeterminate_renders_NA :
    formatPercent none = "N/A" ∧
    formatScore none = "N/A" ∧
    (∀ x : ℚ, formatPercent (some x) = jsToFixed (x * 100) 1 ++ "%") ∧
    (∀ x : ℚ, formatScore (some x) = jsToFixed x 4) ∧
    (∀ x : ℚ, formatPercent (some x) ≠ "N/A") ∧
    (∀ x : ℚ, formatScore (some x) ≠ "N/A") := by
  refine ⟨rfl, rfl, fun x => rfl, fun x => rfl, fun x h => ?_, fun x h => ?_⟩
  · have h1 : 2 + 1 ≤ (jsToFixed (x * 100) 1).length := jsToFixed_length _ 1 (by omega)
    have h2 : ("%" : String).length = 1 := rfl
    have h3 : ("N/A" : String).length = 3 := rfl
    show False
    rw [show formatPercent (some x) = jsToFixed (x * 100) 1 ++ "%" from rfl] at h
    have := congrArg String.length h
    rw [String.length_append, h2, h3] at this
    omega
  · have h1 : 2 + 4 ≤ (jsToFixed x 4).length := jsToFixed_length _ 4 (by omega)
    have h3 : ("N/A" : String).length = 3 := rfl
    have := congrArg String.length h
    rw [show (formatScore (some x)).length = (jsToFixed x 4).length from rfl, h3] at this
    omega

theorem absDesc_trans (a b c : String × ℚ) :
    absDesc a b = true → absDesc b c = true → absDesc a c = true := by
  simp only [absDesc, decide_eq_true_eq]
  intro h1 h2
  exact le_trans h2 h1

theorem absDesc_total (a b : String × ℚ) :
    (absDesc a b || absDesc b a) = true := by
  simp only [absDesc, Bool.or_eq_true, decide_eq_true_eq]
  exact le_total _ _

theorem floorDiv_nonneg (y : ℚ) (d : ℕ) (hy : 0 ≤ y) :
    (0 : ℚ) ≤ (Int.floor (y * 10 ^ d + 1 / 2) : ℚ) / 10 ^ d := by
  have hpos : (0 : ℚ) < 10 ^ d := by positivity
  apply div_nonneg _ (le_of_lt hpos)
  have h0 : (0 : ℤ) ≤ Int.floor (y * 10 ^ d + 1 / 2) := by
    rw [Int.le_floor]
    push_cast
    positivity
  exact_mod_cast h0

theorem abs_jsRound (x : ℚ) (d : ℕ) :
    |jsRound x d| = (Int.floor (|x| * 10 ^ d + 1 / 2) : ℚ) / 10 ^ d := by
  unfold jsRound
  split_ifs with hx
  · rw [abs_of_neg hx, abs_neg]
    exact abs_of_nonneg (floorDiv_nonneg (-x) d (by linarith))
  · rw [abs_of_nonneg (not_lt.mp hx)]
    exact abs_of_nonneg (floorDiv_nonneg x d (not_lt.mp hx))

theorem abs_jsRound_mono (x y : ℚ) (d : ℕ) (h : |x| ≤ |y|) :
    |jsRound x d| ≤ |jsRound y d| := by
  rw [abs_jsRound, abs_jsRound]
  have hpos : (0 : ℚ) < 10 ^ d := by positivity
  have hmul : |x| * 10 ^ d + 1 / 2 ≤ |y| * 10 ^ d + 1 / 2 :=
    add_le_add_right (mul_le_mul_of_nonneg_right h (le_of_lt hpos)) _
  have hfl : ((Int.floor (|x| * 10 ^ d + 1 / 2) : ℤ) : ℚ)
      ≤ ((Int.floor (|y| * 10 ^ d + 1 / 2) : ℤ) : ℚ) := by
    exact_mod_cast Int.floor_le_floor hmul
  gcongr

/-- C10: the feature-contribution chart data contains at most 10
entries; every charted entry stems from a strictly nonzero contribution
(zero contributions are filtered out); the displayed values are in
non-increasing order of absolute value; and each displayed value is the
original contribution rounded to 4 decimal places with the feature name's
underscores replaced by spaces. -/
theorem C10_contrib_chart :
    ∀ m : List (String × ℚ),
      (contribData m).length ≤ 10 ∧
      (contribTop m).all (fun p => decide (p.2 ≠ 0)) = true ∧
      List.Pairwise (fun a b : String × ℚ => |b.2| ≤ |a.2|) (contribData m) ∧
      contribData m
        = (contribTop m).map (fun p => (replaceUnderscores p.1, jsRound p.2 4)) ∧
      (contribSorted m).Perm (m.filter (fun p => decide (p.2 ≠ 0))) := by
  intro m
  refine ⟨?_, ?_, ?_, rfl, List.mergeSort_perm _ _⟩
  · simp only [contribData, contribTop, List.length_map, List.length_take]
    omega
  · rw [List.all_eq_true]
    intro p hp
    have h1 : p ∈ contribSorted m := List.take_subset 10 _ hp
    have h2 : p ∈ m.filter (fun p => decide (p.2 ≠ 0)) :=
      List.mem_mergeSort.mp h1
    exact (List.mem_filter.mp h2).2
  · have hsorted : List.Pairwise (fun a b => absDesc a b = true) (contribSorted m) :=
      List.sorted_mergeSort absDesc_trans absDesc_total _
    have htop : List.Pairwise (fun a b => absDesc a b = true) (contribTop m) :=
      List.Pairwise.sublist (List.take_sublist 10 _) hsorted
    rw [contribData, List.pairwise_map]
    refine htop.imp ?_
    intro a b hab
    simp only [absDesc, decide_eq_true_eq] at hab
    exact abs_jsRound_mono b.2 a.2 4 hab
